import Mathlib

/-!
Verification of the fetch-orchestration pipeline of the steamworkshopMOD-get
repository against its natural-language specification.

The definitions below are a shallow embedding of the Python source
(`src/dist/SteamWorkshop-MOD-get/main.py`, with the near-identical variant
`src/main.py` agreeing on everything modelled here except where noted).
External effects (HTTP responses, the external tool's output lines and exit
code, dialog answers, filesystem contents) are passed in as explicit inputs;
machine behaviour (Python float arithmetic for the progress percentage) is
modelled exactly over the rationals.
-/

/-! ## String helpers (Python `in`, `strip`, and the regex scans used) -/

/-- Decides whether the second character list is a prefix of the first. -/
def listStartsWith : List Char → List Char → Bool
  | _, [] => true
  | [], _ :: _ => false
  | a :: as, b :: bs => a == b && listStartsWith as bs

/-- Auxiliary scan for substring containment over character lists. -/
def strContainsAux : List Char → List Char → Bool
  | [], pat => pat.isEmpty
  | c :: rest, pat => listStartsWith (c :: rest) pat || strContainsAux rest pat

/-- Python's `pat in s` substring test. -/
def strContains (s pat : String) : Bool :=
  strContainsAux s.data pat.data

/-- Drops leading whitespace characters. -/
def dropLeadingWs : List Char → List Char
  | [] => []
  | c :: cs => if c.isWhitespace then dropLeadingWs cs else c :: cs

/-- Python's `str.strip()`: removes leading and trailing whitespace. -/
def pyStrip (s : String) : String :=
  String.mk (List.reverse (dropLeadingWs (List.reverse (dropLeadingWs s.data))))

/-- Scan a character list for the first position where `pat` occurs immediately
followed by at least one decimal digit, and return the maximal digit run there.
This is `re.search(pat ++ r"(\d+)", s)` for a literal pattern `pat`, as used by
`get_mod_id` (pattern `id=`) and the `/app/` scan inside `get_app_info`. -/
def findPatDigits (pat : List Char) : List Char → Option (List Char)
  | [] => none
  | c :: rest =>
    if listStartsWith (c :: rest) pat then
      let ds := ((c :: rest).drop pat.length).takeWhile Char.isDigit
      if ds.isEmpty then findPatDigits pat rest else some ds
    else findPatDigits pat rest

/-- The Identifier Extractor `get_mod_id` (main.py): `re.search(r"id=(\d+)", mod_url)`,
returning the captured digits or `None`. Logging is handled by the caller model. -/
def get_mod_id (mod_url : String) : Option String :=
  (findPatDigits "id=".data mod_url.data).map String.mk

/-- The `re.search(r"/app/(\d+)", s)` scan used by the page-parse tier. -/
def findAppId (s : String) : Option String :=
  (findPatDigits "/app/".data s.data).map String.mk

/-! ## Output Diagnostics Classifier (`analyze_steamcmd_output`) -/

/-- The remediation hints returned by `analyze_steamcmd_output` (identified by
their translation keys in the source). -/
inductive Suggestion where
  | noSubscription
  | invalidPassword
  | tooManyFailures
  | privateOrRemoved
  | invalidGuardCode
  | generalFailure
deriving DecidableEq

/-- The Output Diagnostics Classifier `analyze_steamcmd_output`: ordered
substring checks over the accumulated output text, first match wins, with a
generic fallback. -/
def analyze_steamcmd_output (output_text : String) : Suggestion :=
  if strContains output_text "No subscription" then .noSubscription
  else if strContains output_text "Invalid Password" then .invalidPassword
  else if strContains output_text "Too many login failures" then .tooManyFailures
  else if strContains output_text "Logged in OK" && strContains output_text "Downloading item"
       && strContains output_text "ERROR!" then .privateOrRemoved
  else if strContains output_text "Invalid AuthCode" || strContains output_text "Two-factor code mismatch"
       then .invalidGuardCode
  else .generalFailure

/-- Modelled from the spec's design note: the classifier viewed as an ordered
signature table, first match wins (used to state claim C7 as a refinement). -/
def specSignatures : List ((String → Bool) × Suggestion) :=
  [ (fun t => strContains t "No subscription", .noSubscription),
    (fun t => strContains t "Invalid Password", .invalidPassword),
    (fun t => strContains t "Too many login failures", .tooManyFailures),
    (fun t => strContains t "Logged in OK" && strContains t "Downloading item"
              && strContains t "ERROR!", .privateOrRemoved),
    (fun t => strContains t "Invalid AuthCode" || strContains t "Two-factor code mismatch",
      .invalidGuardCode) ]

/-- First-match semantics over a signature table, with the generic hint as the
default when nothing matches. -/
def firstMatchHint : List ((String → Bool) × Suggestion) → String → Suggestion
  | [], _ => .generalFailure
  | p :: rest, t => if p.1 t then p.2 else firstMatchHint rest t

/-! ## Metadata Resolver (`get_app_info`)

The two network tiers' external responses are explicit inputs: `none` models a
request or parse that raised (network error, non-2xx status); `some` carries
the parts of the document / JSON body that the code inspects. -/

/-- The parts of the workshop item page that `get_app_info` reads:
the text of the `div.apphub_AppName` element (absent if no such element),
the `content` attribute of the `og:url` meta tag (absent if no tag or no
attribute), and the text of the `div.workshopItemTitle` element. -/
structure Page where
  appName : Option String
  ogUrl : Option String
  itemTitle : Option String

/-- One record of the Steam API's `publishedfiledetails` array; each field is
the `str` rendering of the JSON value when the key is present. -/
structure ApiDetail where
  consumerAppId : Option String
  title : Option String

/-- The Steam API response body: `none` for a body without
`response.publishedfiledetails`; `some` carries that array. -/
structure ApiResp where
  details : Option (List ApiDetail)

/-- Result of `get_app_info` together with whether the remote-API tier was
attempted (i.e. whether the `requests.post` in method 2 was reached). -/
structure AppInfoResult where
  triple : Option (String × String × String)
  apiCalled : Bool
deriving DecidableEq

/-- Method 1 of `get_app_info` (the page-parse tier): game name from
`apphub_AppName` (default `"UnknownGame"`), app id from an `/app/(\d+)` match on
the URL, else on the `og:url` meta content, item title from `workshopItemTitle`
(default `"Mod_" ++ mod_id`); succeeds only if all three are non-empty
(Python truthiness of the final `if app_id and game_name and mod_name`).
An input of `none` models the `try` block raising (caught, tier failure). -/
def parse_mod_page (mod_url mod_id : String) (page : Option Page) :
    Option (String × String × String) :=
  match page with
  | none => none
  | some p =>
    let game_name := match p.appName with
      | some t => pyStrip t
      | none => "UnknownGame"
    let appIdOpt := match findAppId mod_url with
      | some a => some a
      | none =>
        match p.ogUrl with
        | some c => findAppId c
        | none => none
    let mod_name := match p.itemTitle with
      | some t => pyStrip t
      | none => "Mod_" ++ mod_id
    match appIdOpt with
    | some a =>
      if a != "" && game_name != "" && mod_name != "" then some (a, game_name, mod_name)
      else none
    | none => none

/-- The Metadata Resolver `get_app_info`: tries the page-parse tier, and only
when it produced nothing falls through to the remote-API tier (method 2), whose
`requests.post` call is recorded in `apiCalled`. The API tier takes the first
detail record's `consumer_app_id` (via `str(details.get('consumer_app_id',''))`)
and `title` (default `"Mod_" ++ mod_id`), always with game name
`"UnknownGame"`; it fails on a raised request, a malformed body, an empty
array, or an empty required field, and then the function returns `None`. -/
def get_app_info (mod_url mod_id : String) (page : Option Page) (api : Option ApiResp) :
    AppInfoResult :=
  match parse_mod_page mod_url mod_id page with
  | some r => { triple := some r, apiCalled := false }
  | none =>
    match api with
    | none => { triple := none, apiCalled := true }
    | some resp =>
      match resp.details with
      | none => { triple := none, apiCalled := true }
      | some [] => { triple := none, apiCalled := true }
      | some (d :: _) =>
        let app_id := match d.consumerAppId with
          | some s => s
          | none => ""
        let mod_name := match d.title with
          | some t => t
          | none => "Mod_" ++ mod_id
        if app_id != "" && mod_name != "" then
          { triple := some (app_id, "UnknownGame", mod_name), apiCalled := true }
        else
          { triple := none, apiCalled := true }

/-! ## Fetch Process Controller (`download_mod`)

The external process is an input: the sequence of lines the streaming loop
reads before `readline` reports end of output, the process exit code, and the
answers the human gives to successive Steam Guard dialogs. -/

/-- Directory paths, as segment lists. -/
abbrev FsPath := List String

/-- The observable emissions of the pipeline (the Qt signals and dialog-driven
actions of the source, as tagged events instead of translated message text). -/
inductive Event where
  | processing (index total : Nat) (url : String)
  | extractFailed (url : String)
  | userCanceled
  | startDownload (appId modId : String)
  | liveStatus (line : String)
  | modDownloaded (modId : String)
  | downloadFailedExit (code : Int)
  | outputDump (text : String)
  | suggestionEv (s : Suggestion)
  | sourceMissing
  | modMoved (dest : FsPath)
  | moveError
  | progressEv (pct : Nat)
  | modsCompleted (completed total : Nat)
  | finishedEv
  | threadError
deriving DecidableEq

/-- One external tool invocation's environment: the output lines the loop
reads, the Steam Guard dialog answers (the k-th guard prompt gets the k-th
answer, as the `(text, ok)` pair `QInputDialog.getText` returns), and the
process exit code. -/
structure FetchEnv where
  lines : List String
  guard : Nat → Bool × String
  exitCode : Int

/-- Detection of an interactive Steam Guard prompt in an output line:
`"Steam Guard" in line and "code" in line`. -/
def isGuardLine (line : String) : Bool :=
  strContains line "Steam Guard" && strContains line "code"

/-- The streaming loop of `download_mod`: reads lines one at a time, appends
the stripped line to the output buffer (also forwarded as a live-status
update), and on a Steam Guard line consults the dialog: a supplied non-empty
code is written (followed by a newline) to the process stdin; a declined or
empty answer kills the process and returns immediately. Returns the
accumulated output, the stdin writes, and whether the process was killed. -/
def streamLoop (guard : Nat → Bool × String) : List String → Nat →
    List String × List String × Bool
  | [], _ => ([], [], false)
  | l :: rest, k =>
    if isGuardLine l then
      let a := guard k
      if a.1 && a.2 != "" then
        let r := streamLoop guard rest (k + 1)
        (pyStrip l :: r.1, (a.2 ++ "\n") :: r.2.1, r.2.2)
      else
        ([pyStrip l], [], true)
    else
      let r := streamLoop guard rest k
      (pyStrip l :: r.1, r.2.1, r.2.2)

/-- Result of one `download_mod` call: the Python return value (`ok`), whether
`process.kill()` was called, the accumulated output buffer, the stdin writes,
and the emitted log/live-status events. -/
structure FetchResult where
  ok : Bool
  killed : Bool
  output : List String
  writes : List String
  events : List Event

/-- Joins the accumulated output lines as `"\n".join(steamcmd_output)`. -/
def joinLines : List String → String
  | [] => ""
  | [l] => l
  | l :: l2 :: rest => l ++ "\n" ++ joinLines (l2 :: rest)

/-- The Fetch Process Controller `download_mod` (dist variant): runs the
streaming loop; if the user declined a Steam Guard prompt the process was
killed and `False` is returned at once (no exit classification). Otherwise the
exit code is classified: 0, 6 and 7 are success (completion logged); every
other code is a failure that logs the exit code, dumps the joined accumulated
output, and attaches the Diagnostics Classifier's hint. -/
def download_mod (app_id mod_id : String) (env : FetchEnv) : FetchResult :=
  let r := streamLoop env.guard env.lines 0
  let liveEvs := r.1.map Event.liveStatus
  if r.2.2 then
    { ok := false, killed := true, output := r.1, writes := r.2.1,
      events := Event.startDownload app_id mod_id :: liveEvs }
  else if env.exitCode == 0 || env.exitCode == 6 || env.exitCode == 7 then
    { ok := true, killed := false, output := r.1, writes := r.2.1,
      events := Event.startDownload app_id mod_id :: liveEvs ++ [Event.modDownloaded mod_id] }
  else
    { ok := false, killed := false, output := r.1, writes := r.2.1,
      events := Event.startDownload app_id mod_id :: liveEvs ++
        [Event.downloadFailedExit env.exitCode,
         Event.outputDump (joinLines r.1),
         Event.suggestionEv (analyze_steamcmd_output (joinLines r.1))] }

/-- The thread's interruption flag made explicit as the per-iteration value the
streaming loop would see if it checked it. The source's loop body contains no
`isInterruptionRequested` call, so the flag is ignored (this wrapper exists to
state claim C2 about the flag). -/
def download_mod_with_flag (_cancelFlag : Nat → Bool) (app_id mod_id : String)
    (env : FetchEnv) : FetchResult :=
  download_mod app_id mod_id env

/-! ## Relocation Manager (`move_and_rename_mod_folder`)

The filesystem is modelled as an association list from directory paths to
whole directory contents (an opaque payload); `os.path.exists` is a lookup,
`shutil.rmtree` removes the entry, and `shutil.move` removes the source entry
and binds the destination to the source's contents. -/

/-- Lookup of a directory in the modelled filesystem. -/
def fsLookup (fs : List (FsPath × Nat)) (p : FsPath) : Option Nat :=
  (fs.find? (fun e => e.1 == p)).map (fun e => e.2)

/-- Removal of a directory (with its whole contents) from the filesystem. -/
def fsRemove (fs : List (FsPath × Nat)) (p : FsPath) : List (FsPath × Nat) :=
  fs.filter (fun e => !(e.1 == p))

/-- Binding a directory to fresh contents. -/
def fsInsert (fs : List (FsPath × Nat)) (p : FsPath) (v : Nat) : List (FsPath × Nat) :=
  (p, v) :: fsRemove fs p

/-- The set of characters the source replaces,
`re.sub(r'[\/:*?"<>|]', '_', name)`. -/
def forbiddenChar (c : Char) : Bool :=
  c == '/' || c == ':' || c == '*' || c == '?' || c == '"' || c == '<' || c == '>' || c == '|'

/-- Sanitization of a name component: each forbidden character becomes an
underscore. -/
def sanitize (s : String) : String :=
  String.mk (s.data.map (fun c => if forbiddenChar c then '_' else c))

/-- The destination directory name `f"[{safe_game_name}&{safe_mod_name}]"`. -/
def destDirName (game_name mod_name : String) : String :=
  "[" ++ sanitize game_name ++ "&" ++ sanitize mod_name ++ "]"

/-- The external tool's per-item output directory
`steamcmd_dir/steamapps/workshop/content/<app_id>/<mod_id>`. -/
def sourceDirPath (steamcmd_dir : FsPath) (app_id mod_id : String) : FsPath :=
  steamcmd_dir ++ ["steamapps", "workshop", "content", app_id, mod_id]

/-- The Relocation Manager `move_and_rename_mod_folder`: fails (returning the
filesystem unchanged) when the per-item source directory is absent; otherwise
deletes a pre-existing destination recursively, then moves the source tree to
`cwd/[safeGame&safeMod]`. Returns the new filesystem, the Python return value,
and the emitted events. -/
def move_and_rename_mod_folder (fs : List (FsPath × Nat)) (steamcmd_dir : FsPath)
    (app_id mod_id game_name mod_name : String) (cwd : FsPath) :
    List (FsPath × Nat) × Bool × List Event :=
  let source_dir := sourceDirPath steamcmd_dir app_id mod_id
  match fsLookup fs source_dir with
  | none => (fs, false, [Event.sourceMissing])
  | some content =>
    let dest_dir := cwd ++ [destDirName game_name mod_name]
    let fs1 := if (fsLookup fs dest_dir).isSome then fsRemove fs dest_dir else fs
    let fs2 := fsInsert (fsRemove fs1 source_dir) dest_dir content
    (fs2, true, [Event.modMoved dest_dir])

/-! ## Python float arithmetic for the progress percentage

`int((completed_mods / total_mods) * 100)` performs two correctly rounded
IEEE-754 binary64 operations (true division of two ints, then multiplication
by 100) followed by truncation toward zero. The two roundings are modelled
exactly over pairs of naturals (the operands are positive and in the normal
range, so neither subnormals nor overflow arise). -/

/-- Fuelled floor of the base-2 logarithm (structural recursion so that the
kernel can evaluate it). -/
def log2fuel : Nat → Nat → Nat
  | 0, _ => 0
  | fuel + 1, n => if 2 ≤ n then log2fuel fuel (n / 2) + 1 else 0

/-- Floor of the base-2 logarithm of a natural number. -/
def natLog2 (n : Nat) : Nat := log2fuel n n

/-- Decides `a / b ≥ 2 ^ e` for positive naturals `a`, `b`. -/
def ratGeTwoPow (a b : Nat) (e : Int) : Bool :=
  if 0 ≤ e then decide (b * 2 ^ e.toNat ≤ a) else decide (b ≤ a * 2 ^ (-e).toNat)

/-- Floor of the base-2 logarithm of `a / b` for positive naturals `a`, `b`. -/
def ratFloorLog2 (a b : Nat) : Int :=
  let e0 : Int := (natLog2 a : Int) - (natLog2 b : Int)
  if ratGeTwoPow a b e0 then e0 else e0 - 1

/-- Correctly rounded conversion of the positive rational `a / b` to the
nearest IEEE-754 binary64 value (round to nearest, ties to even), returned as
an exact rational `(numerator, power-of-two denominator)`. -/
def roundFloat (a b : Nat) : Nat × Nat :=
  if a = 0 then (0, 1) else
  let e := ratFloorLog2 a b
  let s : Int := 52 - e
  let num := if 0 ≤ s then a * 2 ^ s.toNat else a
  let den := if 0 ≤ s then b else b * 2 ^ (-s).toNat
  let q := num / den
  let r := num % den
  let m := if 2 * r < den then q
           else if den < 2 * r then q + 1
           else if q % 2 = 0 then q else q + 1
  let t : Int := e - 52
  if 0 ≤ t then (m * 2 ^ t.toNat, 1) else (m, 2 ^ (-t).toNat)

/-- The progress computation of the orchestrator loop,
`int((completed_mods / total_mods) * 100)`: float division, float
multiplication by 100 (both correctly rounded), then truncation. -/
def progress_percent (completed total : Nat) : Nat :=
  let x := roundFloat completed total
  let y := roundFloat (x.1 * 100) x.2
  y.1 / y.2

/-! ## Pipeline Orchestrator (`DownloadThread.run`)

Cooperative cancellation is a flag read by successive `isInterruptionRequested`
calls; the model indexes those calls by a global counter `n` and takes the
flag's history as a function `cancel : Nat → Bool` (the value the n-th check
observes). The metadata prompt is the `prompt_signal` / response-dict
handshake: the GUI handler runs once, after `arrival` poll iterations, on the
raw dialog results recorded in the scenario. -/

/-- Outcome of the main window's `prompt_for_app_info` handler: either
`cancelled` is set, or `app_id` and `mod_name` are set (both stripped and
non-empty). -/
inductive PromptResult where
  | supplied (appId modName : String)
  | declinedPrompt
deriving DecidableEq

/-- The GUI handler `MainWindow.prompt_for_app_info`: two `QInputDialog`
calls; a rejected dialog or a blank (after strip) text marks the response
cancelled, otherwise the stripped app id and mod name are supplied. -/
def prompt_for_app_info (ok1 : Bool) (text1 : String) (ok2 : Bool) (text2 : String) :
    PromptResult :=
  if !ok1 || pyStrip text1 == "" then .declinedPrompt
  else if !ok2 || pyStrip text2 == "" then .declinedPrompt
  else .supplied (pyStrip text1) (pyStrip text2)

/-- Scenario of one metadata prompt: after `arrival` poll iterations the GUI
handler has run on the recorded dialog results and filled the response dict.
`none` at the item level models a handler that never runs. -/
structure PromptScript where
  arrival : Nat
  ok1 : Bool
  text1 : String
  ok2 : Bool
  text2 : String

/-- The response-dict contents visible at the j-th evaluation of the poll-loop
condition. -/
def promptFilled (script : Option PromptScript) (j : Nat) : Option PromptResult :=
  match script with
  | none => none
  | some s => if s.arrival ≤ j then some (prompt_for_app_info s.ok1 s.text1 s.ok2 s.text2)
              else none

/-- Exit of the `prompt_user_for_app_info` poll loop: the supplied pair, a
`None` return (cancelled response observed after an interruption), the
`KeyError` raised when interruption finds a response without `app_id`, or
fuel exhaustion (model artifact for the loop's possible divergence). -/
inductive PollOutcome where
  | supplied (appId modName : String)
  | canceled
  | keyError
  | running
deriving DecidableEq

/-- The poll loop of `DownloadThread.prompt_user_for_app_info`:
`while 'app_id' not in response and not self.isInterruptionRequested()`.
When `app_id` is present the loop exits without consulting the flag
(short-circuit) and the pair is returned. Otherwise the flag is consulted
(consuming one check index): if requested, the loop exits and
`response.get('cancelled', False)` decides between returning `None` (response
marked cancelled) and `response['app_id']` — which raises `KeyError` when the
response dict is still empty. Returns the outcome and the new check counter. -/
def pollLoop (cancel : Nat → Bool) (script : Option PromptScript) :
    Nat → Nat → Nat → PollOutcome × Nat
  | 0, _, n => (.running, n)
  | fuel + 1, j, n =>
    match promptFilled script j with
    | some (.supplied a m) => (.supplied a m, n)
    | some .declinedPrompt =>
      if cancel n then (.canceled, n + 1)
      else pollLoop cancel script fuel (j + 1) (n + 1)
    | none =>
      if cancel n then (.keyError, n + 1)
      else pollLoop cancel script fuel (j + 1) (n + 1)

/-- The per-item scenario: the raw URL line, the two network tiers' responses,
the metadata-prompt script, the external fetch environment, and the directory
contents the external tool leaves in its per-item output directory on a
successful fetch (`none`: the tool produced no directory). -/
structure ItemEnv where
  url : String
  page : Option Page
  api : Option ApiResp
  promptScript : Option PromptScript
  fetch : FetchEnv
  producedTree : Option Nat

/-- The orchestrator's running state: modelled filesystem, interruption-check
counter, completed count, the arguments of every `download_mod` invocation,
the reported progress percentages, the successful-relocation count, and the
emitted events. -/
structure RunState where
  fs : List (FsPath × Nat)
  n : Nat
  completed : Nat
  downloads : List (String × String)
  progressVals : List Nat
  movedCount : Nat
  events : List Event

/-- How the run ends: the normal path (`finished_signal` emitted, also after a
cancellation `break`), the blanket `except` path (an exception was caught and
logged, no finished signal), or poll-loop fuel exhaustion (model artifact). -/
inductive RunEnd where
  | finished
  | errored
  | fuelOut
deriving DecidableEq

/-- Result of processing one WorkItem: continue with the next item, or halt
the whole run (cancellation `break` or a caught exception). -/
inductive ItemStep where
  | next (st : RunState)
  | halt (st : RunState) (e : RunEnd)

/-- The state carried by an `ItemStep`. -/
def ItemStep.state : ItemStep → RunState
  | .next st => st
  | .halt st _ => st

/-- The download-and-relocate tail of the loop body (the code from the second
interruption check of the loop body onward; split out of `processItem` for
readability): interruption check; `download_mod` (skip the item on failure; on
success the external tool has written the per-item source directory);
interruption check; relocate (skip on failure); on success bump the completed
count and report the freshly recomputed progress percentage. -/
def processItemFetch (cancel : Nat → Bool) (dir cwd : FsPath) (total : Nat)
    (e : ItemEnv) (st : RunState) (mod_id app_id game_name mod_name : String) : ItemStep :=
  if cancel st.n then
    .halt { st with n := st.n + 1, events := st.events ++ [Event.finishedEv] } .finished
  else
    let st3 : RunState :=
      { st with n := st.n + 1, downloads := st.downloads ++ [(app_id, mod_id)] }
    let fr := download_mod app_id mod_id e.fetch
    let st4 : RunState := { st3 with events := st3.events ++ fr.events }
    if fr.ok then
      let fs5 := match e.producedTree with
        | some c => fsInsert st4.fs (sourceDirPath dir app_id mod_id) c
        | none => st4.fs
      let st5 : RunState := { st4 with fs := fs5 }
      if cancel st5.n then
        .halt { st5 with n := st5.n + 1, events := st5.events ++ [Event.finishedEv] } .finished
      else
        let st6 : RunState := { st5 with n := st5.n + 1 }
        let mv := move_and_rename_mod_folder st6.fs dir app_id mod_id game_name mod_name cwd
        let st7 : RunState := { st6 with fs := mv.1, events := st6.events ++ mv.2.2 }
        if mv.2.1 then
          let comp := st7.completed + 1
          let pct := progress_percent comp total
          .next { st7 with
                  completed := comp,
                  movedCount := st7.movedCount + 1,
                  progressVals := st7.progressVals ++ [pct],
                  events := st7.events ++ [Event.progressEv pct, Event.modsCompleted comp total] }
        else .next st7
    else .next st4

/-- The body of the `for` loop of `DownloadThread.run` for one item:
interruption check at the top (a `break` still reaches the `finished_signal`
emit after the loop); skip blank lines; log; extract the mod id (skip on
failure); resolve metadata, falling back to the human prompt (whose poll loop
may return the pair, return `None` — logged and skipped — or raise `KeyError`,
which the blanket `except` of `run` turns into a logged thread error without a
finished signal); interruption check; `download_mod` (skip on failure; on
success the external tool has written the per-item source directory);
interruption check; relocate (skip on failure); on success bump the completed
count and report the freshly recomputed progress percentage. -/
def processItem (cancel : Nat → Bool) (fuel : Nat) (dir cwd : FsPath) (total idx : Nat)
    (e : ItemEnv) (st : RunState) : ItemStep :=
  if cancel st.n then
    .halt { st with n := st.n + 1, events := st.events ++ [Event.finishedEv] } .finished
  else
    let st0 : RunState := { st with n := st.n + 1 }
    let url := pyStrip e.url
    if url == "" then .next st0
    else
      let st1 : RunState := { st0 with events := st0.events ++ [Event.processing idx total url] }
      match get_mod_id url with
      | none => .next { st1 with events := st1.events ++ [Event.extractFailed url] }
      | some mod_id =>
        match (get_app_info url mod_id e.page e.api).triple with
        | some (app_id, game_name, mod_name) =>
          processItemFetch cancel dir cwd total e st1 mod_id app_id game_name mod_name
        | none =>
          match pollLoop cancel e.promptScript fuel 0 st1.n with
          | (.supplied a m, n2) =>
            processItemFetch cancel dir cwd total e { st1 with n := n2 }
              mod_id a "UnknownGame" m
          | (.canceled, n2) =>
            .next { st1 with n := n2, events := st1.events ++ [Event.userCanceled] }
          | (.keyError, n2) =>
            .halt { st1 with n := n2, events := st1.events ++ [Event.threadError] } .errored
          | (.running, n2) =>
            .halt { st1 with n := n2 } .fuelOut

/-- The `for` loop of `DownloadThread.run` over the WorkItems, followed by the
`finished_signal` emit when the loop ends normally (including via `break`). -/
def runItems (cancel : Nat → Bool) (fuel : Nat) (dir cwd : FsPath) (total : Nat) :
    List ItemEnv → Nat → RunState → RunState × RunEnd
  | [], _, st => ({ st with events := st.events ++ [Event.finishedEv] }, .finished)
  | e :: rest, idx, st =>
    match processItem cancel fuel dir cwd total idx e st with
    | .next st2 => runItems cancel fuel dir cwd total rest (idx + 1) st2
    | .halt st2 en => (st2, en)

/-- The initial orchestrator state. -/
def initialState : RunState :=
  { fs := [], n := 0, completed := 0, downloads := [], progressVals := [],
    movedCount := 0, events := [] }

/-- `DownloadThread.run` on a list of item scenarios: `total_mods` is the list
length, items are processed in input order starting at index 1. -/
def thread_run (cancel : Nat → Bool) (fuel : Nat) (dir cwd : FsPath)
    (items : List ItemEnv) : RunState × RunEnd :=
  runItems cancel fuel dir cwd items.length items 1 initialState


/-! ## Specification-side predicates -/

/-- The URL contains the pattern `id=<digits>` (at least one digit right after
an occurrence of the literal). -/
def hasIdDigit (l : List Char) : Prop :=
  ∃ pre c suf, l = pre ++ "id=".data ++ c :: suf ∧ c.isDigit = true

/-- The progress percentages reported during a run, in emission order (the
payloads of the `progress_signal` events). -/
def progressReports (evs : List Event) : List Nat :=
  evs.filterMap (fun ev => match ev with
    | .progressEv p => some p
    | _ => none)

/-- The number of successful relocations during a run (the `modMoved` log
events). -/
def relocationCount (evs : List Event) : Nat :=
  evs.countP (fun ev => match ev with
    | .modMoved _ => true
    | _ => false)

/-! ## Lemmas about the scanners -/

lemma listStartsWith_iff (pat l : List Char) :
    listStartsWith l pat = true ↔ ∃ rest, l = pat ++ rest := by
  induction pat generalizing l with
  | nil => simp [listStartsWith]
  | cons b bs ih =>
    cases l with
    | nil => simp [listStartsWith]
    | cons a as =>
      simp only [listStartsWith, Bool.and_eq_true, beq_iff_eq, ih, List.cons_append,
        List.cons.injEq]
      constructor
      · rintro ⟨rfl, rest, rfl⟩
        exact ⟨rest, rfl, rfl⟩
      · rintro ⟨rest, rfl, rfl⟩
        exact ⟨rfl, rest, rfl⟩

lemma head?_dropWhile_false (p : Char → Bool) (l : List Char) :
    ∀ c, (l.dropWhile p).head? = some c → p c = false := by
  induction l with
  | nil => intro c h; simp [List.dropWhile] at h
  | cons a as ih =>
    intro c h
    by_cases hp : p a
    · rw [List.dropWhile_cons_of_pos hp] at h
      exact ih c h
    · rw [List.dropWhile_cons_of_neg hp] at h
      simp only [List.head?_cons, Option.some.injEq] at h
      subst h
      exact Bool.of_not_eq_true hp

lemma findPatDigits_sound (pat : List Char) (l ds : List Char)
    (h : findPatDigits pat l = some ds) :
    ds ≠ [] ∧ ds.all Char.isDigit = true ∧
      ∃ pre suf, l = pre ++ pat ++ ds ++ suf ∧
        (∀ c, suf.head? = some c → c.isDigit = false) := by
  induction l with
  | nil => simp [findPatDigits] at h
  | cons a as ih =>
    rw [findPatDigits] at h
    by_cases hs : listStartsWith (a :: as) pat = true
    · rw [if_pos hs] at h
      obtain ⟨rest, hrest⟩ := (listStartsWith_iff pat (a :: as)).mp hs
      have hdrop : (a :: as).drop pat.length = rest := by
        rw [hrest, List.drop_left]
      rw [hdrop] at h
      by_cases hds : (rest.takeWhile Char.isDigit).isEmpty = true
      · rw [if_pos hds] at h
        obtain ⟨hne, hall, pre, suf, hdec, hsuf⟩ := ih h
        exact ⟨hne, hall, a :: pre, suf, by simp [hdec], hsuf⟩
      · rw [if_neg hds] at h
        injection h with h
        subst h
        refine ⟨?_, ?_, [], rest.dropWhile Char.isDigit, ?_, ?_⟩
        · intro hnil
          rw [hnil] at hds
          simp at hds
        · simp only [List.all_eq_true]
          intro x hx
          exact List.mem_takeWhile_imp hx
        · rw [hrest]
          simp [List.takeWhile_append_dropWhile]
        · intro c hc
          exact head?_dropWhile_false Char.isDigit rest c hc
    · rw [if_neg hs] at h
      obtain ⟨hne, hall, pre, suf, hdec, hsuf⟩ := ih h
      exact ⟨hne, hall, a :: pre, suf, by simp [hdec], hsuf⟩

lemma findPatDigits_complete (pat : List Char) :
    ∀ (pre : List Char) (c : Char) (suf : List Char), c.isDigit = true →
      (findPatDigits pat (pre ++ pat ++ c :: suf)).isSome = true := by
  intro pre
  induction pre with
  | nil =>
    intro c suf hc
    simp only [List.nil_append]
    have hsw : listStartsWith (pat ++ c :: suf) pat = true :=
      (listStartsWith_iff pat _).mpr ⟨c :: suf, rfl⟩
    have hdrop : (pat ++ c :: suf).drop pat.length = c :: suf := List.drop_left _ _
    cases hpc : pat ++ c :: suf with
    | nil => simp at hpc
    | cons x xs =>
      rw [hpc] at hsw hdrop
      rw [findPatDigits, if_pos hsw, hdrop, List.takeWhile_cons_of_pos hc]
      simp
  | cons a pre' ih =>
    intro c suf hc
    simp only [List.cons_append]
    rw [findPatDigits]
    by_cases hs : listStartsWith (a :: (pre' ++ pat ++ c :: suf)) pat = true
    · rw [if_pos hs]
      by_cases hds :
          (((a :: (pre' ++ pat ++ c :: suf)).drop pat.length).takeWhile Char.isDigit).isEmpty
            = true
      · rw [if_pos hds]
        exact ih c suf hc
      · rw [if_neg hds]
        simp
    · rw [if_neg hs]
      exact ih c suf hc

lemma get_mod_id_none_iff (url : String) :
    get_mod_id url = none ↔ ¬ hasIdDigit url.data := by
  constructor
  · intro h hpat
    obtain ⟨pre, c, suf, hdec, hc⟩ := hpat
    have := findPatDigits_complete "id=".data pre c suf hc
    rw [← hdec] at this
    simp only [get_mod_id, Option.map_eq_none'] at h
    rw [h] at this
    simp at this
  · intro h
    cases hf : findPatDigits "id=".data url.data with
    | none => simp [get_mod_id, hf]
    | some ds =>
      obtain ⟨hne, hall, pre, suf, hdec, _⟩ := findPatDigits_sound _ _ _ hf
      cases ds with
      | nil => exact absurd rfl hne
      | cons d ds' =>
        exfalso
        apply h
        refine ⟨pre, d, ds' ++ suf, by simpa using hdec, ?_⟩
        simp only [List.all_eq_true] at hall
        exact hall d (by simp)

lemma get_mod_id_some (url s : String) (h : get_mod_id url = some s) :
    s ≠ "" ∧ s.data.all Char.isDigit = true ∧
      ∃ pre suf, url.data = pre ++ "id=".data ++ s.data ++ suf ∧
        (∀ c, suf.head? = some c → c.isDigit = false) := by
  simp only [get_mod_id, Option.map_eq_some'] at h
  obtain ⟨ds, hf, rfl⟩ := h
  obtain ⟨hne, hall, pre, suf, hdec, hsuf⟩ := findPatDigits_sound _ _ _ hf
  refine ⟨?_, hall, pre, suf, hdec, hsuf⟩
  intro hempty
  apply hne
  have : (String.mk ds).data = ("" : String).data := by rw [hempty]
  simpa using this

lemma findAppId_some (s a : String) (h : findAppId s = some a) : a ≠ "" := by
  simp only [findAppId, Option.map_eq_some'] at h
  obtain ⟨ds, hf, rfl⟩ := h
  obtain ⟨hne, -, -⟩ := findPatDigits_sound _ _ _ hf
  intro hempty
  apply hne
  have : (String.mk ds).data = ("" : String).data := by rw [hempty]
  simpa using this

/-- C7: the Output Diagnostics Classifier is a pure total function of the
output text (a Lean function by construction, so it never raises and returns
exactly one hint); it coincides with first-match-wins evaluation of the
ordered signature table (no-subscription, invalid credential, excessive login
failures, login-ok-but-download-error, invalid two-factor code); text
containing "No subscription" gets the no-subscription hint, and text matching
no signature gets the generic undetermined-failure hint. -/
theorem c7_classifier_first_match (t : String) :
    analyze_steamcmd_output t = firstMatchHint specSignatures t ∧
    (strContains t "No subscription" = true →
      analyze_steamcmd_output t = .noSubscription) ∧
    ((∀ pr ∈ specSignatures, pr.1 t = false) →
      analyze_steamcmd_output t = .generalFailure) := by
  refine ⟨rfl, ?_, ?_⟩
  · intro h
    simp [analyze_steamcmd_output, h]
  · intro h
    rw [specSignatures] at h
    simp only [List.forall_mem_cons, List.forall_mem_nil] at h
    obtain ⟨h1, h2, h3, h4, h5, -⟩ := h
    simp [analyze_steamcmd_output, h1, h2, h3, h4, h5]

/-- Witness for C7 at concrete inputs. -/
theorem c7_witness :
    analyze_steamcmd_output "Logged in OK\nERROR! No subscription" = .noSubscription ∧
    analyze_steamcmd_output "all fine here" = .generalFailure :=
  ⟨(c7_classifier_first_match "Logged in OK\nERROR! No subscription").2.1 (by decide),
   (c7_classifier_first_match "all fine here").2.2 (by decide)⟩

/-! ## Lemmas about the streaming loop -/

lemma streamLoop_not_killed_output (g : Nat → Bool × String) (lines : List String) (k : Nat)
    (h : (streamLoop g lines k).2.2 = false) :
    (streamLoop g lines k).1 = lines.map pyStrip := by
  induction lines generalizing k with
  | nil => simp [streamLoop]
  | cons l rest ih =>
    by_cases hg : isGuardLine l = true
    · rw [streamLoop, if_pos hg] at h ⊢
      by_cases ha : (g k).1 && (g k).2 != ""
      · rw [if_pos ha] at h ⊢
        simpa using ih (k + 1) h
      · rw [if_neg ha] at h
        simp at h
    · rw [streamLoop, if_neg hg] at h ⊢
      simpa using ih k h

lemma streamLoop_killed_guard (g : Nat → Bool × String) (lines : List String) (k : Nat)
    (h : (streamLoop g lines k).2.2 = true) :
    ∃ l, l ∈ lines ∧ isGuardLine l = true := by
  induction lines generalizing k with
  | nil => simp [streamLoop] at h
  | cons l rest ih =>
    by_cases hg : isGuardLine l = true
    · exact ⟨l, by simp, hg⟩
    · rw [streamLoop, if_neg hg] at h
      simp only at h
      obtain ⟨x, hx, hgx⟩ := ih k h
      exact ⟨x, by simp [hx], hgx⟩

lemma streamLoop_guard_free_front (g : Nat → Bool × String) (pre rest : List String) (k : Nat)
    (hpre : ∀ x ∈ pre, isGuardLine x = false) :
    streamLoop g (pre ++ rest) k =
      (pre.map pyStrip ++ (streamLoop g rest k).1,
       (streamLoop g rest k).2.1, (streamLoop g rest k).2.2) := by
  induction pre with
  | nil => simp
  | cons a pre' ih =>
    have ha : isGuardLine a = false := hpre a (by simp)
    have hpre' : ∀ x ∈ pre', isGuardLine x = false := fun x hx => hpre x (by simp [hx])
    rw [List.cons_append, streamLoop, if_neg (by simp [ha]), ih hpre']
    simp

lemma download_mod_writes (a m : String) (env : FetchEnv) :
    (download_mod a m env).writes = (streamLoop env.guard env.lines 0).2.1 := by
  by_cases h1 : (streamLoop env.guard env.lines 0).2.2 = true
  · simp [download_mod, h1]
  · rw [Bool.not_eq_true] at h1
    by_cases h2 : (env.exitCode == 0 || env.exitCode == 6 || env.exitCode == 7) = true
    · simp [download_mod, h1, h2]
    · simp only [Bool.not_eq_true] at h2
      simp [download_mod, h1, h2]

/-- C1: with no declined Steam Guard prompt (so that the loop runs to process
exit), `download_mod` classifies the exit code: 0, 6 and 7 return `True` and
log completion; every other exit code returns `False`, logging the exit code,
the full accumulated output text (the joined stripped lines), and the
classifier's hint. -/
theorem c1_exit_classification (app_id mod_id : String) (env : FetchEnv)
    (hnk : (streamLoop env.guard env.lines 0).2.2 = false) :
    ((download_mod app_id mod_id env).ok = true ↔
      (env.exitCode = 0 ∨ env.exitCode = 6 ∨ env.exitCode = 7)) ∧
    (download_mod app_id mod_id env).output = env.lines.map pyStrip ∧
    ((env.exitCode = 0 ∨ env.exitCode = 6 ∨ env.exitCode = 7) →
      Event.modDownloaded mod_id ∈ (download_mod app_id mod_id env).events) ∧
    (¬ (env.exitCode = 0 ∨ env.exitCode = 6 ∨ env.exitCode = 7) →
      (download_mod app_id mod_id env).ok = false ∧
      Event.downloadFailedExit env.exitCode ∈ (download_mod app_id mod_id env).events ∧
      Event.outputDump (joinLines (env.lines.map pyStrip))
        ∈ (download_mod app_id mod_id env).events ∧
      Event.suggestionEv (analyze_steamcmd_output (joinLines (env.lines.map pyStrip)))
        ∈ (download_mod app_id mod_id env).events) := by
  have hout := streamLoop_not_killed_output env.guard env.lines 0 hnk
  by_cases hex : env.exitCode = 0 ∨ env.exitCode = 6 ∨ env.exitCode = 7
  · have hb : (env.exitCode == 0 || env.exitCode == 6 || env.exitCode == 7) = true := by
      rcases hex with h | h | h <;> simp [h]
    refine ⟨?_, ?_, ?_, fun hc => absurd hex hc⟩ <;>
      simp [download_mod, hnk, hb, hout, hex]
  · have hb : (env.exitCode == 0 || env.exitCode == 6 || env.exitCode == 7) = false := by
      simp only [Bool.or_eq_false_iff, beq_eq_false_iff_ne]
      push_neg at hex
      exact ⟨⟨hex.1, hex.2.1⟩, hex.2.2⟩
    refine ⟨?_, ?_, fun hc => absurd hc hex, ?_⟩ <;>
      simp [download_mod, hnk, hb, hout, hex]

/-- Witness for C1: exit code 7 is classified as success, exit code 1 as a
failure. -/
theorem c1_witness :
    (download_mod "440" "123" ⟨["ok line"], fun _ => (false, ""), 7⟩).ok = true ∧
    (download_mod "440" "123" ⟨["bad line"], fun _ => (false, ""), 1⟩).ok = false := by
  constructor
  · exact (c1_exit_classification "440" "123"
      ⟨["ok line"], fun _ => (false, ""), 7⟩ (by decide)).1.mpr (by decide)
  · exact ((c1_exit_classification "440" "123"
      ⟨["bad line"], fun _ => (false, ""), 1⟩ (by decide)).2.2.2 (by decide)).1

/-- C2 counterexample: the claim "the cancellation flag is checked in every
iteration of the streaming loop, and a cancellation requested mid-fetch
forcibly terminates the external process before the task returns" is false:
with the flag raised during every loop iteration, the loop still reads the
whole output, never kills the process, and the fetch succeeds. -/
theorem c2_counterexample :
    ¬ (∀ (flag : Nat → Bool) (app_id mod_id : String) (env : FetchEnv),
        (∃ i, i < env.lines.length ∧ flag i = true) →
        (download_mod_with_flag flag app_id mod_id env).killed = true ∧
        (download_mod_with_flag flag app_id mod_id env).ok = false) := by
  intro h
  have hc := (h (fun _ => true) "440" "123"
    ⟨["Update complete"], fun _ => (false, ""), 0⟩ ⟨0, by decide, rfl⟩).1
  exact absurd hc (by decide)

/-- C2 (amended): the streaming loop never consults the cancellation flag —
the result of `download_mod` is identical for any two flag histories — and the
external process is killed only when a Steam Guard prompt line appeared in the
output (and was declined), never because of cancellation. -/
theorem c2_stream_flag_independent (f1 f2 : Nat → Bool) (app_id mod_id : String)
    (env : FetchEnv) :
    download_mod_with_flag f1 app_id mod_id env = download_mod_with_flag f2 app_id mod_id env ∧
    ((download_mod_with_flag f1 app_id mod_id env).killed = true →
      (download_mod_with_flag f1 app_id mod_id env).ok = false ∧
      ∃ l, l ∈ env.lines ∧ isGuardLine l = true) := by
  refine ⟨rfl, fun hk => ?_⟩
  by_cases hkill : (streamLoop env.guard env.lines 0).2.2 = true
  · exact ⟨by simp [download_mod_with_flag, download_mod, hkill],
      streamLoop_killed_guard env.guard env.lines 0 hkill⟩
  · exfalso
    rw [Bool.not_eq_true] at hkill
    by_cases hb : (env.exitCode == 0 || env.exitCode == 6 || env.exitCode == 7) = true <;>
      simp [download_mod_with_flag, download_mod, hkill, hb] at hk

/-- Witness for C2's amended theorem: a declined Steam Guard prompt is the one
way the process gets killed, and then the fetch fails. -/
theorem c2_witness :
    (download_mod_with_flag (fun _ => false) "440" "123"
      ⟨["Steam Guard code required"], fun _ => (false, ""), 0⟩).ok = false ∧
    ∃ l, l ∈ ["Steam Guard code required"] ∧ isGuardLine l = true :=
  (c2_stream_flag_independent (fun _ => false) (fun _ => true) "440" "123"
    ⟨["Steam Guard code required"], fun _ => (false, ""), 0⟩).2 (by decide)

/-- C4: when the first Steam Guard prompt line arrives (both "Steam Guard" and
"code" occur in the line), the controller solicits a code: a supplied
non-empty code is written, followed by a newline, to the process stdin; a
declined prompt kills the process and returns `False` immediately — the
accumulated output and the live-status events stop at the prompt line, no
further lines are read, and no exit classification is logged. -/
theorem c4_guard_prompt (app_id mod_id : String) (env : FetchEnv)
    (pre post : List String) (l : String)
    (hlines : env.lines = pre ++ l :: post)
    (hpre : ∀ x ∈ pre, isGuardLine x = false)
    (hl : isGuardLine l = true) :
    ((env.guard 0).1 = true → (env.guard 0).2 ≠ "" →
      ∃ ws, (download_mod app_id mod_id env).writes = ((env.guard 0).2 ++ "\n") :: ws) ∧
    ((env.guard 0).1 = false ∨ (env.guard 0).2 = "" →
      (download_mod app_id mod_id env).killed = true ∧
      (download_mod app_id mod_id env).ok = false ∧
      (download_mod app_id mod_id env).output = (pre ++ [l]).map pyStrip ∧
      (download_mod app_id mod_id env).events =
        Event.startDownload app_id mod_id ::
          ((pre ++ [l]).map pyStrip).map Event.liveStatus) := by
  have hsplit := streamLoop_guard_free_front env.guard pre (l :: post) 0 hpre
  constructor
  · intro hok hcode
    have ha : ((env.guard 0).1 && (env.guard 0).2 != "") = true := by
      simp [hok, hcode]
    have hrest : streamLoop env.guard (l :: post) 0 =
        (pyStrip l :: (streamLoop env.guard post 1).1,
         ((env.guard 0).2 ++ "\n") :: (streamLoop env.guard post 1).2.1,
         (streamLoop env.guard post 1).2.2) := by
      rw [streamLoop, if_pos hl, if_pos ha]
    refine ⟨(streamLoop env.guard post 1).2.1, ?_⟩
    rw [download_mod_writes, hlines, hsplit, hrest]
  · intro hdec
    have ha : ((env.guard 0).1 && (env.guard 0).2 != "") = false := by
      rcases hdec with h | h <;> simp [h]
    have hrest : streamLoop env.guard (l :: post) 0 = ([pyStrip l], [], true) := by
      rw [streamLoop, if_pos hl, if_neg (by simp [ha])]
    refine ⟨?_, ?_, ?_, ?_⟩ <;>
      simp [download_mod, hlines, hsplit, hrest]

/-- Witness for C4 at a concrete declined prompt and a concrete supplied
code. -/
theorem c4_witness :
    (download_mod "440" "123"
      ⟨["hello", "Steam Guard code needed"], fun _ => (false, ""), 0⟩).killed = true ∧
    ∃ ws, (download_mod "440" "123"
      ⟨["Steam Guard code needed", "more"], fun _ => (true, "XYZ12"), 0⟩).writes
        = ("XYZ12" ++ "\n") :: ws := by
  constructor
  · exact ((c4_guard_prompt "440" "123"
      ⟨["hello", "Steam Guard code needed"], fun _ => (false, ""), 0⟩
      ["hello"] [] "Steam Guard code needed" rfl (by decide) (by decide)).2
      (Or.inl rfl)).1
  · exact (c4_guard_prompt "440" "123"
      ⟨["Steam Guard code needed", "more"], fun _ => (true, "XYZ12"), 0⟩
      [] ["more"] "Steam Guard code needed" rfl (by simp) (by decide)).1 rfl (by decide)

/-! ## Lemmas about the modelled filesystem -/

lemma fsLookup_fsInsert_same (fs : List (FsPath × Nat)) (p : FsPath) (v : Nat) :
    fsLookup (fsInsert fs p v) p = some v := by
  simp [fsLookup, fsInsert, List.find?]

lemma fsLookup_fsRemove_same (fs : List (FsPath × Nat)) (p : FsPath) :
    fsLookup (fsRemove fs p) p = none := by
  induction fs with
  | nil => rfl
  | cons e rest ih =>
    by_cases he : e.1 = p
    · simpa [fsRemove, he] using ih
    · have : (e.1 == p) = false := by simp [he]
      simp only [fsRemove, List.filter] at ih ⊢
      simp [this, fsLookup, List.find?, ih, fsRemove]

lemma fsLookup_cons_of_ne (e : FsPath × Nat) (rest : List (FsPath × Nat)) (q : FsPath)
    (h : (e.1 == q) = false) : fsLookup (e :: rest) q = fsLookup rest q := by
  simp [fsLookup, List.find?_cons, h]

lemma fsRemove_cons_of_eq (e : FsPath × Nat) (rest : List (FsPath × Nat)) (p : FsPath)
    (h : (e.1 == p) = true) : fsRemove (e :: rest) p = fsRemove rest p := by
  simp [fsRemove, List.filter_cons, h]

lemma fsRemove_cons_of_ne (e : FsPath × Nat) (rest : List (FsPath × Nat)) (p : FsPath)
    (h : (e.1 == p) = false) : fsRemove (e :: rest) p = e :: fsRemove rest p := by
  simp [fsRemove, List.filter_cons, h]

lemma fsLookup_fsRemove_ne (fs : List (FsPath × Nat)) (p q : FsPath) (h : q ≠ p) :
    fsLookup (fsRemove fs p) q = fsLookup fs q := by
  induction fs with
  | nil => rfl
  | cons e rest ih =>
    by_cases he : e.1 = p
    · have hbp : (e.1 == p) = true := by simp [he]
      have hbq : (e.1 == q) = false := by
        rw [he]
        exact beq_eq_false_iff_ne.mpr (Ne.symm h)
      rw [fsRemove_cons_of_eq e rest p hbp, fsLookup_cons_of_ne e rest q hbq]
      exact ih
    · have hbp : (e.1 == p) = false := beq_eq_false_iff_ne.mpr he
      rw [fsRemove_cons_of_ne e rest p hbp]
      by_cases heq : e.1 = q
      · have hbq : (e.1 == q) = true := by simp [heq]
        simp [fsLookup, List.find?_cons, hbq]
      · have hbq : (e.1 == q) = false := beq_eq_false_iff_ne.mpr heq
        rw [fsLookup_cons_of_ne e _ q hbq, fsLookup_cons_of_ne e rest q hbq]
        exact ih

lemma fsLookup_fsInsert_ne (fs : List (FsPath × Nat)) (p q : FsPath) (v : Nat) (h : q ≠ p) :
    fsLookup (fsInsert fs p v) q = fsLookup fs q := by
  have h1 : ((p, v).1 == q) = false := beq_eq_false_iff_ne.mpr (Ne.symm h)
  rw [fsInsert, fsLookup_cons_of_ne _ _ q h1]
  exact fsLookup_fsRemove_ne fs p q h

/-- C8: relocation sanitizes both name components (no forbidden character
survives; each is replaced by an underscore), targets
`cwd/[safeGame&safeMod]`, fails leaving the filesystem unchanged when the
tool's per-item output directory is absent, and otherwise deletes any
pre-existing destination and moves (not copies) the source tree there — so
the destination ends up with exactly the source's contents and the source is
gone; relocating again after a second fetch leaves the destination bound to
exactly the second fetch's contents. -/
theorem c8_relocation (fs : List (FsPath × Nat)) (dir cwd : FsPath)
    (app_id mod_id g m : String) (c c2 : Nat) :
    (∀ ch ∈ (sanitize g).data, forbiddenChar ch = false) ∧
    (fsLookup fs (sourceDirPath dir app_id mod_id) = none →
      move_and_rename_mod_folder fs dir app_id mod_id g m cwd
        = (fs, false, [Event.sourceMissing])) ∧
    (fsLookup fs (sourceDirPath dir app_id mod_id) = some c →
      (move_and_rename_mod_folder fs dir app_id mod_id g m cwd).2.1 = true ∧
      (move_and_rename_mod_folder fs dir app_id mod_id g m cwd).2.2
        = [Event.modMoved (cwd ++ [destDirName g m])] ∧
      fsLookup (move_and_rename_mod_folder fs dir app_id mod_id g m cwd).1
        (cwd ++ [destDirName g m]) = some c ∧
      (cwd ++ [destDirName g m] ≠ sourceDirPath dir app_id mod_id →
        fsLookup (move_and_rename_mod_folder fs dir app_id mod_id g m cwd).1
          (sourceDirPath dir app_id mod_id) = none)) ∧
    fsLookup (move_and_rename_mod_folder
        (fsInsert fs (sourceDirPath dir app_id mod_id) c2)
        dir app_id mod_id g m cwd).1
      (cwd ++ [destDirName g m]) = some c2 := by
  refine ⟨?_, ?_, ?_, ?_⟩
  · intro ch hch
    simp only [sanitize, List.mem_map] at hch
    obtain ⟨x, -, rfl⟩ := hch
    by_cases hx : forbiddenChar x = true
    · simp only [hx, if_true]
      decide
    · rw [Bool.not_eq_true] at hx
      simp [hx]
  · intro hnone
    simp [move_and_rename_mod_folder, hnone]
  · intro hsome
    refine ⟨by simp [move_and_rename_mod_folder, hsome], by simp [move_and_rename_mod_folder, hsome], ?_, ?_⟩
    · simp only [move_and_rename_mod_folder, hsome]
      exact fsLookup_fsInsert_same _ _ _
    · intro hne
      simp only [move_and_rename_mod_folder, hsome]
      rw [fsLookup_fsInsert_ne _ _ _ _ (Ne.symm hne)]
      exact fsLookup_fsRemove_same _ _
  · have hsome := fsLookup_fsInsert_same fs (sourceDirPath dir app_id mod_id) c2
    simp only [move_and_rename_mod_folder, hsome]
    exact fsLookup_fsInsert_same _ _ _

/-- Witness for C8 at a concrete filesystem, with forbidden characters in both
name components. -/
theorem c8_witness :
    fsLookup (move_and_rename_mod_folder
        [(["steamcmd", "steamapps", "workshop", "content", "440", "123"], 5)]
        ["steamcmd"] "440" "123" "Ga/me" "Mo:d" []).1
      ([] ++ [destDirName "Ga/me" "Mo:d"]) = some 5 ∧
    fsLookup (move_and_rename_mod_folder
        [(["steamcmd", "steamapps", "workshop", "content", "440", "123"], 5)]
        ["steamcmd"] "440" "123" "Ga/me" "Mo:d" []).1
      (sourceDirPath ["steamcmd"] "440" "123") = none := by
  have h := (c8_relocation
    [(["steamcmd", "steamapps", "workshop", "content", "440", "123"], 5)]
    ["steamcmd"] [] "440" "123" "Ga/me" "Mo:d" 5 9).2.2.1 (by decide)
  exact ⟨h.2.2.1, h.2.2.2 (by decide)⟩

/-! ## Lemmas about the Metadata Resolver -/

lemma get_app_info_parse_some (mod_url mod_id : String) (page : Option Page)
    (api : Option ApiResp) (r : String × String × String)
    (hr : parse_mod_page mod_url mod_id page = some r) :
    get_app_info mod_url mod_id page api = ⟨some r, false⟩ := by
  simp [get_app_info, hr]

lemma get_app_info_apiCalled (mod_url mod_id : String) (page : Option Page)
    (api : Option ApiResp) (hp : parse_mod_page mod_url mod_id page = none) :
    (get_app_info mod_url mod_id page api).apiCalled = true := by
  simp only [get_app_info, hp]
  cases api with
  | none => rfl
  | some resp =>
    obtain ⟨details⟩ := resp
    cases details with
    | none => rfl
    | some ds =>
      cases ds with
      | nil => rfl
      | cons d rest =>
        dsimp only
        split <;> rfl

/-- C6 counterexample: the claim's parenthetical "when page parsing resolves
both an app id and a title it returns without calling the API" is false: a
page whose `apphub_AppName` element exists but strips to the empty string
makes the page triple incomplete (Python truthiness), so the resolver falls
through to the API tier even though the URL resolves the app id and the title
element resolves a non-empty title. -/
theorem c6_counterexample :
    ¬ (∀ (mod_url mod_id : String) (p : Page) (api : Option ApiResp),
        (findAppId mod_url).isSome = true →
        (∃ t, p.itemTitle = some t ∧ pyStrip t ≠ "") →
        (get_app_info mod_url mod_id (some p) api).apiCalled = false) := by
  intro h
  have hc := h "https://steamcommunity.com/app/440/workshop/?id=123" "123"
    ⟨some "", none, some "TestMod"⟩ none (by decide) ⟨"TestMod", rfl, by decide⟩
  exact absurd hc (by decide)

/-- C6 (amended): the remote-API tier is attempted exactly when the page-parse
tier threw or produced an incomplete triple (a missing app id, or a game name
or title that is empty after stripping); when the page-parse tier yields a
complete triple the resolver returns it without calling the API; and when the
page-parse tier fails while the API returns `consumer_app_id "440"` and title
`"Example Mod"` for content id `"123"`, the resolver returns
`("440", "UnknownGame", "Example Mod")`. -/
theorem c6_tiered_resolution (mod_url mod_id : String) (page : Option Page)
    (api : Option ApiResp) :
    ((get_app_info mod_url mod_id page api).apiCalled = true ↔
      parse_mod_page mod_url mod_id page = none) ∧
    (∀ r, parse_mod_page mod_url mod_id page = some r →
      get_app_info mod_url mod_id page api = ⟨some r, false⟩) ∧
    get_app_info mod_url "123" none (some ⟨some [⟨some "440", some "Example Mod"⟩]⟩)
      = ⟨some ("440", "UnknownGame", "Example Mod"), true⟩ := by
  refine ⟨?_, fun r hr => get_app_info_parse_some mod_url mod_id page api r hr, rfl⟩
  cases hp : parse_mod_page mod_url mod_id page with
  | some r =>
    rw [get_app_info_parse_some mod_url mod_id page api r hp]
    simp
  | none =>
    simp [get_app_info_apiCalled mod_url mod_id page api hp]

/-- Witness for C6 at a concrete page-parse success: a single "network call"
(the page fetch) suffices and the API is not attempted. -/
theorem c6_witness :
    get_app_info "https://steamcommunity.com/app/440/workshop/?id=123" "123"
      (some ⟨some "Team Fortress 2", none, some "Mod Title"⟩)
      (some ⟨some [⟨some "999", some "Wrong"⟩]⟩)
      = ⟨some ("440", "Team Fortress 2", "Mod Title"), false⟩ :=
  (c6_tiered_resolution "https://steamcommunity.com/app/440/workshop/?id=123" "123"
    (some ⟨some "Team Fortress 2", none, some "Mod Title"⟩)
    (some ⟨some [⟨some "999", some "Wrong"⟩]⟩)).2.1
    ("440", "Team Fortress 2", "Mod Title") (by decide)

/-- C5 counterexample: the reported progress value is not `floor(100 * c / t)`
for every completed count c and total t: with 29 of 100 items completed the
Python computation `int((29 / 100) * 100)` yields 28 (the binary64 product
`0.29 * 100` is just below 29), while `floor(100 * 29 / 100) = 29`. -/
theorem c5_counterexample :
    ¬ (∀ completed total : Nat, 0 < completed → completed ≤ total →
        progress_percent completed total = 100 * completed / total) := by
  intro h
  have hc := h 29 100 (by decide) (by decide)
  rw [show progress_percent 29 100 = 28 from by decide] at hc
  exact absurd hc (by decide)

/-! ## Lemmas about the prompt poll loop and the run invariant (C9) -/

lemma prompt_for_app_info_supplied (ok1 : Bool) (t1 : String) (ok2 : Bool) (t2 : String)
    (a m : String) (h : prompt_for_app_info ok1 t1 ok2 t2 = .supplied a m) :
    a ≠ "" ∧ m ≠ "" := by
  simp only [prompt_for_app_info] at h
  by_cases h1 : (!ok1 || pyStrip t1 == "") = true
  · rw [if_pos h1] at h
    simp at h
  · rw [if_neg h1] at h
    by_cases h2 : (!ok2 || pyStrip t2 == "") = true
    · rw [if_pos h2] at h
      simp at h
    · rw [if_neg h2] at h
      injection h with ha hm
      simp only [Bool.or_eq_true, not_or, Bool.not_eq_true] at h1 h2
      subst ha hm
      exact ⟨by simpa using h1.2, by simpa using h2.2⟩

lemma promptFilled_some (script : Option PromptScript) (j : Nat) (r : PromptResult)
    (h : promptFilled script j = some r) :
    ∃ s, script = some s ∧ r = prompt_for_app_info s.ok1 s.text1 s.ok2 s.text2 := by
  cases script with
  | none => simp [promptFilled] at h
  | some s =>
    simp only [promptFilled] at h
    by_cases ha : s.arrival ≤ j
    · rw [if_pos ha] at h
      exact ⟨s, rfl, (Option.some.inj h).symm⟩
    · rw [if_neg ha] at h
      simp at h

lemma pollLoop_supplied (cancel : Nat → Bool) (script : Option PromptScript)
    (fuel : Nat) : ∀ j n a m n2,
    pollLoop cancel script fuel j n = (.supplied a m, n2) → a ≠ "" ∧ m ≠ "" := by
  induction fuel with
  | zero =>
    intro j n a m n2 h
    simp [pollLoop] at h
  | succ fuel ih =>
    intro j n a m n2 h
    rw [pollLoop] at h
    split at h
    · next a' m' heq =>
      simp only [Prod.mk.injEq, PollOutcome.supplied.injEq] at h
      obtain ⟨⟨rfl, rfl⟩, -⟩ := h
      obtain ⟨s, -, hr⟩ := promptFilled_some script j _ heq
      exact prompt_for_app_info_supplied s.ok1 s.text1 s.ok2 s.text2 a' m' hr.symm
    · split at h
      · simp at h
      · exact ih _ _ _ _ _ h
    · split at h
      · simp at h
      · exact ih _ _ _ _ _ h

lemma parse_mod_page_some (mod_url mod_id : String) (page : Option Page)
    (a g m : String) (h : parse_mod_page mod_url mod_id page = some (a, g, m)) :
    a ≠ "" ∧ g ≠ "" ∧ m ≠ "" := by
  cases page with
  | none => simp [parse_mod_page] at h
  | some p =>
    simp only [parse_mod_page] at h
    split at h
    · next a' heq =>
      split at h
      · next hcond =>
        rw [Option.some.injEq, Prod.mk.injEq, Prod.mk.injEq] at h
        obtain ⟨rfl, rfl, rfl⟩ := h
        simp only [Bool.and_eq_true, bne_iff_ne, ne_eq] at hcond
        exact ⟨hcond.1.1, hcond.1.2, hcond.2⟩
      · exact absurd h (by simp)
    · exact absurd h (by simp)

lemma get_app_info_appid (mod_url mod_id : String) (page : Option Page) (api : Option ApiResp)
    (a g m : String) (h : (get_app_info mod_url mod_id page api).triple = some (a, g, m)) :
    a ≠ "" := by
  simp only [get_app_info] at h
  split at h
  · next r heq =>
    simp only at h
    rw [h] at heq
    exact (parse_mod_page_some mod_url mod_id page a g m heq).1
  · next heq =>
    split at h
    · simp at h
    · next resp =>
      split at h
      · simp at h
      · simp at h
      · next d rest =>
        split at h
        · next hcond =>
          simp only at h
          rw [Option.some.injEq, Prod.mk.injEq, Prod.mk.injEq] at h
          obtain ⟨rfl, -, -⟩ := h
          simp only [Bool.and_eq_true, bne_iff_ne, ne_eq] at hcond
          exact hcond.1
        · simp at h

lemma processItemFetch_downloads (cancel : Nat → Bool) (dir cwd : FsPath) (total : Nat)
    (e : ItemEnv) (st : RunState) (mod_id app_id game_name mod_name : String)
    (hP : ∀ q ∈ st.downloads, q.1 ≠ "" ∧ q.2 ≠ "" ∧ q.2.data.all Char.isDigit = true)
    (ha : app_id ≠ "") (hm : mod_id ≠ "") (hd : mod_id.data.all Char.isDigit = true) :
    ∀ q ∈ (processItemFetch cancel dir cwd total e st mod_id app_id game_name
      mod_name).state.downloads,
      q.1 ≠ "" ∧ q.2 ≠ "" ∧ q.2.data.all Char.isDigit = true := by
  have hext : ∀ q ∈ st.downloads ++ [(app_id, mod_id)],
      q.1 ≠ "" ∧ q.2 ≠ "" ∧ q.2.data.all Char.isDigit = true := by
    intro q hq
    rcases List.mem_append.mp hq with hq | hq
    · exact hP q hq
    · simp only [List.mem_singleton] at hq
      subst hq
      exact ⟨ha, hm, hd⟩
  simp only [processItemFetch]
  split
  · simpa [ItemStep.state] using hP
  · split
    · split
      · simpa [ItemStep.state] using hext
      · split
        · simpa [ItemStep.state] using hext
        · simpa [ItemStep.state] using hext
    · simpa [ItemStep.state] using hext

lemma processItem_downloads (cancel : Nat → Bool) (fuel : Nat) (dir cwd : FsPath)
    (total idx : Nat) (e : ItemEnv) (st : RunState)
    (hP : ∀ q ∈ st.downloads, q.1 ≠ "" ∧ q.2 ≠ "" ∧ q.2.data.all Char.isDigit = true) :
    ∀ q ∈ (processItem cancel fuel dir cwd total idx e st).state.downloads,
      q.1 ≠ "" ∧ q.2 ≠ "" ∧ q.2.data.all Char.isDigit = true := by
  simp only [processItem]
  split
  · simpa [ItemStep.state] using hP
  · split
    · simpa [ItemStep.state] using hP
    · split
      · simpa [ItemStep.state] using hP
      · next mod_id hmid =>
        obtain ⟨hmne, hmdig, -⟩ := get_mod_id_some _ _ hmid
        split
        · next app_id game_name mod_name heq =>
          exact processItemFetch_downloads cancel dir cwd total e _ mod_id app_id
            game_name mod_name hP (get_app_info_appid _ _ _ _ _ _ _ heq) hmne hmdig
        · split
          · next a m n2 hpoll =>
            obtain ⟨hane, -⟩ := pollLoop_supplied cancel e.promptScript fuel 0 _ a m n2 hpoll
            exact processItemFetch_downloads cancel dir cwd total e _ mod_id a
              "UnknownGame" m hP hane hmne hmdig
          · simpa [ItemStep.state] using hP
          · simpa [ItemStep.state] using hP
          · simpa [ItemStep.state] using hP

lemma runItems_downloads (cancel : Nat → Bool) (fuel : Nat) (dir cwd : FsPath) (total : Nat) :
    ∀ (items : List ItemEnv) (idx : Nat) (st : RunState),
      (∀ q ∈ st.downloads, q.1 ≠ "" ∧ q.2 ≠ "" ∧ q.2.data.all Char.isDigit = true) →
      ∀ q ∈ (runItems cancel fuel dir cwd total items idx st).1.downloads,
        q.1 ≠ "" ∧ q.2 ≠ "" ∧ q.2.data.all Char.isDigit = true := by
  intro items
  induction items with
  | nil =>
    intro idx st hP
    simpa [runItems] using hP
  | cons e rest ih =>
    intro idx st hP
    rw [runItems]
    split
    · next st2 hstep =>
      apply ih (idx + 1) st2
      have h := processItem_downloads cancel fuel dir cwd total idx e st hP
      rw [hstep] at h
      simpa [ItemStep.state] using h
    · next st2 en hstep =>
      have h := processItem_downloads cancel fuel dir cwd total idx e st hP
      rw [hstep] at h
      simpa [ItemStep.state] using h

/-- C9: on every path through the pipeline, `download_mod` is invoked only
with a non-empty owner app id (from page parsing, the remote API, or a
stripped non-empty human prompt response) and a non-empty all-digit content
id (from the extractor); no WorkItem reaches the Fetch Process Controller
with an empty identifier. -/
theorem c9_download_invariant (cancel : Nat → Bool) (fuel : Nat) (dir cwd : FsPath)
    (items : List ItemEnv) (q : String × String)
    (hq : q ∈ (thread_run cancel fuel dir cwd items).1.downloads) :
    q.1 ≠ "" ∧ q.2 ≠ "" ∧ q.2.data.all Char.isDigit = true :=
  runItems_downloads cancel fuel dir cwd items.length items 1 initialState
    (by simp [initialState]) q hq

/-- Witness for C9 at a concrete one-item run whose fetch is invoked with
app id "440" and content id "123". -/
theorem c9_witness :
    ("440", "123") ∈ (thread_run (fun _ => false) 5 [] []
      [⟨"https://steamcommunity.com/app/440/x?id=123", some ⟨some "G", none, some "M"⟩,
        none, none, ⟨[], fun _ => (false, ""), 1⟩, none⟩]).1.downloads ∧
    ("440" : String) ≠ "" ∧ ("123" : String).data.all Char.isDigit = true := by
  have hmem : ("440", "123") ∈ (thread_run (fun _ => false) 5 [] []
      [⟨"https://steamcommunity.com/app/440/x?id=123", some ⟨some "G", none, some "M"⟩,
        none, none, ⟨[], fun _ => (false, ""), 1⟩, none⟩]).1.downloads := by decide
  have h := c9_download_invariant (fun _ => false) 5 [] []
    [⟨"https://steamcommunity.com/app/440/x?id=123", some ⟨some "G", none, some "M"⟩,
      none, none, ⟨[], fun _ => (false, ""), 1⟩, none⟩] ("440", "123") hmem
  exact ⟨hmem, h.1, h.2.2⟩

/-- C3 (the code, not the claim): a cancellation request arriving while the
pipeline waits in the human-prompt poll loop, before any response has been
supplied, does not end the run with a clean Cancelled outcome: the poll loop
exits with an empty response dict, `response['app_id']` raises `KeyError`,
the blanket handler of `run` logs a thread error, and the finished signal is
never emitted. A cancellation observed at the loop-top check of the same item,
by contrast, ends the run normally (break, then the finished signal). -/
theorem c3_cancel_during_prompt_poll :
    (thread_run (fun n => decide (1 ≤ n)) 5 [] []
      [⟨"https://steamcommunity.com/sharedfiles/filedetails/?id=123", none, none, none,
        ⟨[], fun _ => (false, ""), 0⟩, none⟩]).2 = RunEnd.errored ∧
    Event.threadError ∈ (thread_run (fun n => decide (1 ≤ n)) 5 [] []
      [⟨"https://steamcommunity.com/sharedfiles/filedetails/?id=123", none, none, none,
        ⟨[], fun _ => (false, ""), 0⟩, none⟩]).1.events ∧
    Event.finishedEv ∉ (thread_run (fun n => decide (1 ≤ n)) 5 [] []
      [⟨"https://steamcommunity.com/sharedfiles/filedetails/?id=123", none, none, none,
        ⟨[], fun _ => (false, ""), 0⟩, none⟩]).1.events ∧
    (thread_run (fun _ => true) 5 [] []
      [⟨"https://steamcommunity.com/sharedfiles/filedetails/?id=123", none, none, none,
        ⟨[], fun _ => (false, ""), 0⟩, none⟩]).2 = RunEnd.finished ∧
    Event.finishedEv ∈ (thread_run (fun _ => true) 5 [] []
      [⟨"https://steamcommunity.com/sharedfiles/filedetails/?id=123", none, none, none,
        ⟨[], fun _ => (false, ""), 0⟩, none⟩]).1.events :=
  ⟨by decide, by decide, by decide, by decide, by decide⟩

/-! ## Progress-reporting invariant of the orchestrator loop (C5) -/

lemma progressReports_append (l1 l2 : List Event) :
    progressReports (l1 ++ l2) = progressReports l1 ++ progressReports l2 := by
  simp [progressReports, List.filterMap_append]

lemma relocationCount_append (l1 l2 : List Event) :
    relocationCount (l1 ++ l2) = relocationCount l1 + relocationCount l2 := by
  simp [relocationCount, List.countP_append]

lemma progressReports_live (l : List String) :
    progressReports (l.map Event.liveStatus) = [] := by
  induction l with
  | nil => rfl
  | cons a t ih => simp [progressReports, List.filterMap_cons, ih]

lemma relocationCount_live (l : List String) :
    relocationCount (l.map Event.liveStatus) = 0 := by
  induction l with
  | nil => rfl
  | cons a t ih => simp [relocationCount, List.countP_cons, ih]

lemma download_mod_events_quiet (a m : String) (env : FetchEnv) :
    progressReports (download_mod a m env).events = [] ∧
    relocationCount (download_mod a m env).events = 0 := by
  simp only [download_mod]
  split
  · constructor
    · simp [progressReports, List.filterMap_cons,
        progressReports_live (streamLoop env.guard env.lines 0).1]
    · simp [relocationCount, List.countP_cons,
        relocationCount_live (streamLoop env.guard env.lines 0).1]
  · split
    · constructor
      · simp only [progressReports, List.filterMap_cons, List.filterMap_append]
        simp [progressReports, progressReports_live (streamLoop env.guard env.lines 0).1]
      · simp only [relocationCount, List.countP_cons, List.countP_append]
        simp [relocationCount, relocationCount_live (streamLoop env.guard env.lines 0).1]
    · constructor
      · simp only [progressReports, List.filterMap_cons, List.filterMap_append]
        simp [progressReports, progressReports_live (streamLoop env.guard env.lines 0).1]
      · simp only [relocationCount, List.countP_cons, List.countP_append]
        simp [relocationCount, relocationCount_live (streamLoop env.guard env.lines 0).1]

lemma move_events (fs : List (FsPath × Nat)) (dir : FsPath)
    (app_id mod_id g m : String) (cwd : FsPath) :
    (move_and_rename_mod_folder fs dir app_id mod_id g m cwd).2.2
      = (if (move_and_rename_mod_folder fs dir app_id mod_id g m cwd).2.1 = true
         then [Event.modMoved (cwd ++ [destDirName g m])] else [Event.sourceMissing]) := by
  cases hsrc : fsLookup fs (sourceDirPath dir app_id mod_id) with
  | none => simp [move_and_rename_mod_folder, hsrc]
  | some c => simp [move_and_rename_mod_folder, hsrc]

lemma progressReports_finished : progressReports [Event.finishedEv] = [] := rfl

lemma relocationCount_finished : relocationCount [Event.finishedEv] = 0 := rfl

lemma progressReports_progress_pair (p c t : Nat) :
    progressReports [Event.progressEv p, Event.modsCompleted c t] = [p] := rfl

lemma relocationCount_progress_pair (p c t : Nat) :
    relocationCount [Event.progressEv p, Event.modsCompleted c t] = 0 := rfl

lemma progressReports_moved (d : FsPath) : progressReports [Event.modMoved d] = [] := rfl

lemma relocationCount_moved (d : FsPath) : relocationCount [Event.modMoved d] = 1 := rfl

lemma progressReports_missing : progressReports [Event.sourceMissing] = [] := rfl

lemma relocationCount_missing : relocationCount [Event.sourceMissing] = 0 := rfl

lemma progressReports_processing (i t : Nat) (u : String) :
    progressReports [Event.processing i t u] = [] := rfl

lemma relocationCount_processing (i t : Nat) (u : String) :
    relocationCount [Event.processing i t u] = 0 := rfl

lemma progressReports_extractFailed (u : String) :
    progressReports [Event.extractFailed u] = [] := rfl

lemma relocationCount_extractFailed (u : String) :
    relocationCount [Event.extractFailed u] = 0 := rfl

lemma progressReports_userCanceled : progressReports [Event.userCanceled] = [] := rfl

lemma relocationCount_userCanceled : relocationCount [Event.userCanceled] = 0 := rfl

lemma progressReports_threadError : progressReports [Event.threadError] = [] := rfl

lemma relocationCount_threadError : relocationCount [Event.threadError] = 0 := rfl

lemma progressReports_nil : progressReports [] = [] := rfl

lemma relocationCount_nil : relocationCount [] = 0 := rfl

lemma progressReports_moved_cons (d : FsPath) (l : List Event) :
    progressReports (Event.modMoved d :: l) = progressReports l := rfl

lemma relocationCount_moved_cons (d : FsPath) (l : List Event) :
    relocationCount (Event.modMoved d :: l) = relocationCount l + 1 := by
  simp [relocationCount, List.countP_cons]

lemma progressReports_progress_cons (p : Nat) (l : List Event) :
    progressReports (Event.progressEv p :: l) = p :: progressReports l := rfl

lemma relocationCount_progress_cons (p : Nat) (l : List Event) :
    relocationCount (Event.progressEv p :: l) = relocationCount l := by
  simp [relocationCount, List.countP_cons]

lemma progressReports_modsCompleted_cons (c t : Nat) (l : List Event) :
    progressReports (Event.modsCompleted c t :: l) = progressReports l := rfl

lemma relocationCount_modsCompleted_cons (c t : Nat) (l : List Event) :
    relocationCount (Event.modsCompleted c t :: l) = relocationCount l := by
  simp [relocationCount, List.countP_cons]

lemma progressReports_processing_cons (i t : Nat) (u : String) (l : List Event) :
    progressReports (Event.processing i t u :: l) = progressReports l := rfl

lemma relocationCount_processing_cons (i t : Nat) (u : String) (l : List Event) :
    relocationCount (Event.processing i t u :: l) = relocationCount l := by
  simp [relocationCount, List.countP_cons]

lemma progressReports_extractFailed_cons (u : String) (l : List Event) :
    progressReports (Event.extractFailed u :: l) = progressReports l := rfl

lemma relocationCount_extractFailed_cons (u : String) (l : List Event) :
    relocationCount (Event.extractFailed u :: l) = relocationCount l := by
  simp [relocationCount, List.countP_cons]

lemma progressReports_userCanceled_cons (l : List Event) :
    progressReports (Event.userCanceled :: l) = progressReports l := rfl

lemma relocationCount_userCanceled_cons (l : List Event) :
    relocationCount (Event.userCanceled :: l) = relocationCount l := by
  simp [relocationCount, List.countP_cons]

lemma progressReports_threadError_cons (l : List Event) :
    progressReports (Event.threadError :: l) = progressReports l := rfl

lemma relocationCount_threadError_cons (l : List Event) :
    relocationCount (Event.threadError :: l) = relocationCount l := by
  simp [relocationCount, List.countP_cons]

lemma processItemFetch_progress (cancel : Nat → Bool) (dir cwd : FsPath) (total : Nat)
    (e : ItemEnv) (st : RunState) (mod_id app_id game_name mod_name : String)
    (h1 : st.completed = st.movedCount)
    (h2 : st.progressVals
      = (List.range st.movedCount).map (fun i => progress_percent (i + 1) total))
    (h3 : progressReports st.events = st.progressVals)
    (h4 : relocationCount st.events = st.movedCount) :
    ((processItemFetch cancel dir cwd total e st mod_id app_id game_name
        mod_name).state.completed
      = (processItemFetch cancel dir cwd total e st mod_id app_id game_name
        mod_name).state.movedCount) ∧
    ((processItemFetch cancel dir cwd total e st mod_id app_id game_name
        mod_name).state.progressVals
      = (List.range (processItemFetch cancel dir cwd total e st mod_id app_id game_name
          mod_name).state.movedCount).map (fun i => progress_percent (i + 1) total)) ∧
    (progressReports (processItemFetch cancel dir cwd total e st mod_id app_id game_name
        mod_name).state.events
      = (processItemFetch cancel dir cwd total e st mod_id app_id game_name
        mod_name).state.progressVals) ∧
    (relocationCount (processItemFetch cancel dir cwd total e st mod_id app_id game_name
        mod_name).state.events
      = (processItemFetch cancel dir cwd total e st mod_id app_id game_name
        mod_name).state.movedCount) := by
  obtain ⟨hq1, hq2⟩ := download_mod_events_quiet app_id mod_id e.fetch
  have hmv := move_events (match e.producedTree with
      | some c => fsInsert st.fs (sourceDirPath dir app_id mod_id) c
      | none => st.fs) dir app_id mod_id game_name mod_name cwd
  simp only [processItemFetch]
  split
  · refine ⟨h1, h2, ?_, ?_⟩ <;>
      simp [ItemStep.state, progressReports_append, relocationCount_append,
        progressReports_finished, relocationCount_finished, h3, h4]
  · split
    · split
      · refine ⟨h1, h2, ?_, ?_⟩ <;>
          simp [ItemStep.state, progressReports_append, relocationCount_append,
            progressReports_finished, relocationCount_finished, h3, h4, hq1, hq2]
      · split
        · next hmoved =>
          rw [hmv, if_pos hmoved]
          refine ⟨by simp [ItemStep.state, h1], ?_, ?_, ?_⟩ <;>
            simp [ItemStep.state, progressReports_append, relocationCount_append,
              progressReports_progress_pair, relocationCount_progress_pair,
              progressReports_moved, relocationCount_moved, progressReports_nil,
              relocationCount_nil, progressReports_moved_cons, relocationCount_moved_cons,
              progressReports_progress_cons, relocationCount_progress_cons,
              progressReports_modsCompleted_cons, relocationCount_modsCompleted_cons,
              h3, h4, hq1, hq2, List.range_succ, h1, h2]
        · next hmoved =>
          rw [Bool.not_eq_true] at hmoved
          rw [hmv, if_neg (by simp [hmoved])]
          refine ⟨h1, h2, ?_, ?_⟩ <;>
            simp [ItemStep.state, progressReports_append, relocationCount_append,
              progressReports_missing, relocationCount_missing, h3, h4, hq1, hq2]
    · refine ⟨h1, h2, ?_, ?_⟩ <;>
        simp [ItemStep.state, progressReports_append, relocationCount_append, h3, h4,
          hq1, hq2]

lemma processItem_progress (cancel : Nat → Bool) (fuel : Nat) (dir cwd : FsPath)
    (total idx : Nat) (e : ItemEnv) (st : RunState)
    (h1 : st.completed = st.movedCount)
    (h2 : st.progressVals
      = (List.range st.movedCount).map (fun i => progress_percent (i + 1) total))
    (h3 : progressReports st.events = st.progressVals)
    (h4 : relocationCount st.events = st.movedCount) :
    ((processItem cancel fuel dir cwd total idx e st).state.completed
      = (processItem cancel fuel dir cwd total idx e st).state.movedCount) ∧
    ((processItem cancel fuel dir cwd total idx e st).state.progressVals
      = (List.range (processItem cancel fuel dir cwd total idx e st).state.movedCount).map
          (fun i => progress_percent (i + 1) total)) ∧
    (progressReports (processItem cancel fuel dir cwd total idx e st).state.events
      = (processItem cancel fuel dir cwd total idx e st).state.progressVals) ∧
    (relocationCount (processItem cancel fuel dir cwd total idx e st).state.events
      = (processItem cancel fuel dir cwd total idx e st).state.movedCount) := by
  simp only [processItem]
  split
  · refine ⟨h1, h2, ?_, ?_⟩ <;>
      simp [ItemStep.state, progressReports_append, relocationCount_append,
        progressReports_finished, relocationCount_finished, h3, h4]
  · split
    · exact ⟨h1, h2, by simpa [ItemStep.state] using h3, by simpa [ItemStep.state] using h4⟩
    · split
      · refine ⟨h1, h2, ?_, ?_⟩ <;>
          simp [ItemStep.state, progressReports_append, relocationCount_append,
            progressReports_processing_cons, relocationCount_processing_cons,
            progressReports_extractFailed_cons, relocationCount_extractFailed_cons,
            progressReports_nil, relocationCount_nil, h3, h4]
      · next mod_id hmid =>
        split
        · next app_id game_name mod_name heq =>
          refine processItemFetch_progress cancel dir cwd total e _ mod_id app_id
            game_name mod_name (by simpa using h1) (by simpa using h2) ?_ ?_
          · simp [progressReports_append, progressReports_processing, h3]
          · simp [relocationCount_append, relocationCount_processing, h4]
        · split
          · next a m n2 hpoll =>
            refine processItemFetch_progress cancel dir cwd total e _ mod_id a
              "UnknownGame" m (by simpa using h1) (by simpa using h2) ?_ ?_
            · simp [progressReports_append, progressReports_processing, h3]
            · simp [relocationCount_append, relocationCount_processing, h4]
          · refine ⟨h1, h2, ?_, ?_⟩ <;>
              simp [ItemStep.state, progressReports_append, relocationCount_append,
                progressReports_processing_cons, relocationCount_processing_cons,
                progressReports_userCanceled_cons, relocationCount_userCanceled_cons,
                progressReports_nil, relocationCount_nil, h3, h4]
          · refine ⟨h1, h2, ?_, ?_⟩ <;>
              simp [ItemStep.state, progressReports_append, relocationCount_append,
                progressReports_processing_cons, relocationCount_processing_cons,
                progressReports_threadError_cons, relocationCount_threadError_cons,
                progressReports_nil, relocationCount_nil, h3, h4]
          · refine ⟨h1, h2, ?_, ?_⟩ <;>
              simp [ItemStep.state, progressReports_append, relocationCount_append,
                progressReports_processing_cons, relocationCount_processing_cons,
                progressReports_nil, relocationCount_nil, h3, h4]

lemma runItems_progress (cancel : Nat → Bool) (fuel : Nat) (dir cwd : FsPath) (total : Nat) :
    ∀ (items : List ItemEnv) (idx : Nat) (st : RunState),
      st.completed = st.movedCount →
      st.progressVals = (List.range st.movedCount).map (fun i => progress_percent (i + 1) total) →
      progressReports st.events = st.progressVals →
      relocationCount st.events = st.movedCount →
      progressReports (runItems cancel fuel dir cwd total items idx st).1.events
        = (List.range (relocationCount
            (runItems cancel fuel dir cwd total items idx st).1.events)).map
            (fun i => progress_percent (i + 1) total) := by
  intro items
  induction items with
  | nil =>
    intro idx st h1 h2 h3 h4
    simp [runItems, progressReports_append, relocationCount_append,
      progressReports_finished, relocationCount_finished, h3, h4, h2]
  | cons e rest ih =>
    intro idx st h1 h2 h3 h4
    rw [runItems]
    have h := processItem_progress cancel fuel dir cwd total idx e st h1 h2 h3 h4
    split
    · next st2 hstep =>
      rw [hstep] at h
      exact ih (idx + 1) st2 h.1 h.2.1 h.2.2.1 h.2.2.2
    · next st2 en hstep =>
      rw [hstep] at h
      dsimp only [ItemStep.state] at h
      dsimp only
      rw [h.2.2.2]
      exact h.2.2.1.trans h.2.1

/-- C5 (amended): the orchestrator reports a progress percentage exactly once
per successful relocation, recomputed from scratch each time as the Python
float computation `int((completed / total) * 100)` (modelled bit-exactly by
`progress_percent`): the sequence of reported values of a run is
`[progress_percent 1 total, …, progress_percent k total]` where `k` is the
number of relocations. `progress_percent` agrees with `floor(100 * c / t)` at
3 of 7 (both 42), but not universally: at 29 of 100 it reports 28. -/
theorem c5_progress_reports (cancel : Nat → Bool) (fuel : Nat) (dir cwd : FsPath)
    (items : List ItemEnv) :
    progressReports (thread_run cancel fuel dir cwd items).1.events
      = (List.range (relocationCount (thread_run cancel fuel dir cwd items).1.events)).map
          (fun i => progress_percent (i + 1) items.length) ∧
    progress_percent 3 7 = 42 ∧ 100 * 3 / 7 = 42 ∧ progress_percent 29 100 = 28 :=
  ⟨runItems_progress cancel fuel dir cwd items.length items 1 initialState rfl rfl rfl rfl,
   by decide, by decide, by decide⟩

/-- C10: the Identifier Extractor succeeds exactly on URLs containing
`id=<digits>`: it fails (returns `None`) iff no occurrence of `id=` is
immediately followed by a digit; on success it returns a non-empty all-digit
string that occurs in the URL right after an `id=` and is maximal there. And
in the pipeline a URL whose extraction fails only logs and skips that item:
the run continues on the remaining items from an otherwise unchanged state
(same filesystem, downloads, counters; one interruption check consumed and
two log events recorded). -/
theorem c10_extractor_and_skip :
    (∀ url : String, get_mod_id url = none ↔ ¬ hasIdDigit url.data) ∧
    (∀ url s, get_mod_id url = some s → s ≠ "" ∧ s.data.all Char.isDigit = true ∧
      ∃ pre suf, url.data = pre ++ "id=".data ++ s.data ++ suf ∧
        (∀ c, suf.head? = some c → c.isDigit = false)) ∧
    (∀ (cancel : Nat → Bool) (fuel : Nat) (dir cwd : FsPath) (total : Nat)
        (e : ItemEnv) (rest : List ItemEnv) (idx : Nat) (st : RunState),
      cancel st.n = false → pyStrip e.url ≠ "" → get_mod_id (pyStrip e.url) = none →
      runItems cancel fuel dir cwd total (e :: rest) idx st
        = runItems cancel fuel dir cwd total rest (idx + 1)
            { st with
              n := st.n + 1,
              events := st.events ++ [Event.processing idx total (pyStrip e.url),
                Event.extractFailed (pyStrip e.url)] }) := by
  refine ⟨get_mod_id_none_iff, get_mod_id_some, ?_⟩
  intro cancel fuel dir cwd total e rest idx st hc hne hmid
  have hbeq : (pyStrip e.url == "") = false := by simpa using hne
  rw [runItems]
  have hstep : processItem cancel fuel dir cwd total idx e st
      = .next { st with
          n := st.n + 1,
          events := st.events ++ [Event.processing idx total (pyStrip e.url),
            Event.extractFailed (pyStrip e.url)] } := by
    simp only [processItem, hc, hbeq, hmid]
    simp
  rw [hstep]

/-- Witness for C10: a concrete URL's extraction, and a concrete skipped item
that leaves the rest of the run starting from the same state. -/
theorem c10_witness :
    (("123" : String) ≠ "" ∧ ("123" : String).data.all Char.isDigit = true ∧
      ∃ pre suf, ("https://steamcommunity.com/sharedfiles/filedetails/?id=123" : String).data
        = pre ++ "id=".data ++ ("123" : String).data ++ suf ∧
        (∀ c, suf.head? = some c → c.isDigit = false)) ∧
    runItems (fun _ => false) 5 [] [] 2
        [⟨"htt://no-digits-here", none, none, none, ⟨[], fun _ => (false, ""), 0⟩, none⟩]
        1 initialState
      = runItems (fun _ => false) 5 [] [] 2 [] 2
          { initialState with
            n := initialState.n + 1,
            events := initialState.events ++
              [Event.processing 1 2 (pyStrip "htt://no-digits-here"),
               Event.extractFailed (pyStrip "htt://no-digits-here")] } := by
  constructor
  · exact c10_extractor_and_skip.2.1
      "https://steamcommunity.com/sharedfiles/filedetails/?id=123" "123" (by decide)
  · exact c10_extractor_and_skip.2.2 (fun _ => false) 5 [] [] 2
      ⟨"htt://no-digits-here", none, none, none, ⟨[], fun _ => (false, ""), 0⟩, none⟩
      [] 1 initialState rfl (by decide) (by decide)
